import Mathlib

/-! Shallow embedding of the socket-level dispatch and admission-control
layer of the rsocket-go repository: the interaction contract and its
default responder (package socket), the lease-gated base socket with its
once-only close sequence, and the transport URI resolver (package
transport).  Machine integers and time instants are modelled as Nat,
fallible operations return Except or Option, and side effects (logging,
forwarding to the underlying duplex socket, hook invocation) are made
explicit in the return types. -/

/-- A payload: opaque unit of application data, conceptually data bytes
plus optional metadata bytes. -/
structure Payload where
  data : List Nat
  metadata : Option (List Nat)
deriving DecidableEq

/-- The argument of RequestChannel (an rx.Publisher), kept opaque as a
list of payloads. -/
abbrev Publisher := List Payload

/-- Errors of the socket layer: the five unsupported-interaction error
values declared in package socket, plus the two lease-denial reasons of
the admission-control layer. -/
inductive RError where
  | unsupportedMetadataPush
  | unsupportedFireAndForget
  | unsupportedRequestResponse
  | unsupportedRequestStream
  | unsupportedRequestChannel
  | leaseExpired
  | leaseExhausted
deriving DecidableEq

/-- errUnsupportedMetadataPush of package socket. -/
def errUnsupportedMetadataPush : RError := RError.unsupportedMetadataPush

/-- errUnsupportedFireAndForget of package socket. -/
def errUnsupportedFireAndForget : RError := RError.unsupportedFireAndForget

/-- errUnsupportedRequestResponse of package socket. -/
def errUnsupportedRequestResponse : RError := RError.unsupportedRequestResponse

/-- errUnsupportedRequestStream of package socket. -/
def errUnsupportedRequestStream : RError := RError.unsupportedRequestStream

/-- errUnsupportedRequestChannel of package socket. -/
def errUnsupportedRequestChannel : RError := RError.unsupportedRequestChannel

/-- A mono.Mono as this layer observes it: either an already-failed mono
(mono.Error e) or a mono obtained by forwarding the message elsewhere
(the underlying duplex socket or a user handler). -/
inductive Mono where
  | error (e : RError)
  | fromSocket (message : Payload)
deriving DecidableEq

/-- A flux.Flux as this layer observes it: either an already-failed flux
(flux.Error e) or a flux obtained by forwarding the stream request or the
channel request elsewhere. -/
inductive Flux where
  | error (e : RError)
  | fromSocketStream (message : Payload)
  | fromSocketChannel (messages : Publisher)
deriving DecidableEq

/-- A lease window: absolute deadline and remaining request quota.  Spec:
remaining is a non-negative integer; a refresh replaces both fields. -/
structure Lease where
  deadline : Nat
  remaining : Nat
deriving DecidableEq

/-- The leaser held by a base socket: nil until a first refresh installs a
window, meaning no lease enforcement. -/
abbrev Leaser := Option Lease

/-- Modelled from the spec: the leaser type itself (its allow method) is
referenced by baseSocket but its body is not among the provided sources.
Per the spec, allow atomically reads the current time and the remaining
quota; if no window was ever installed it allows; else if now is at or
past the deadline it denies with lease expired; else if remaining is zero
it denies with lease exhausted; else it decrements remaining by one and
allows.  Returns the denial, if any, together with the leaser state
afterwards. -/
def Leaser.allow : Leaser → Nat → Option RError × Leaser
  | none, _ => (none, none)
  | some l, now =>
    if l.deadline ≤ now then (some RError.leaseExpired, some l)
    else if l.remaining = 0 then (some RError.leaseExhausted, some l)
    else (none, some { deadline := l.deadline, remaining := l.remaining - 1 })

/-- baseSocket.refreshLease: deadline is now plus ttl; when no leaser
exists yet it installs a fresh one (newLeaser), otherwise it refreshes the
existing one; per the spec a refresh atomically replaces both fields, so
both branches yield the same window. -/
def baseSocket.refreshLease (reqLease : Leaser) (now ttl n : Nat) : Leaser :=
  some { deadline := now + ttl, remaining := n }

/-- Observable outcome of baseSocket.FireAndForget: the warning logged via
logger.Warnf when the lease denies, the message sent to the underlying
duplex socket (if any), and the leaser state afterwards. -/
structure FireAndForgetOut where
  warned : Option RError
  sent : Option Payload
  reqLease : Leaser
deriving DecidableEq

/-- baseSocket.FireAndForget: asks the leaser; a denial is only logged;
the message is then forwarded to the underlying duplex socket
unconditionally (the source has no early return after the log). -/
def baseSocket.FireAndForget (reqLease : Leaser) (now : Nat)
    (message : Payload) : FireAndForgetOut :=
  let r := Leaser.allow reqLease now
  { warned := r.1, sent := some message, reqLease := r.2 }

/-- Observable outcome of baseSocket.MetadataPush: the message sent to the
underlying duplex socket and the leaser state afterwards. -/
structure MetadataPushOut where
  sent : Option Payload
  reqLease : Leaser
deriving DecidableEq

/-- baseSocket.MetadataPush: forwards to the underlying duplex socket; the
leaser is never consulted. -/
def baseSocket.MetadataPush (reqLease : Leaser) (message : Payload) :
    MetadataPushOut :=
  { sent := some message, reqLease := reqLease }

/-- baseSocket.RequestResponse: on lease denial returns mono.Error(err)
without contacting the underlying duplex socket, otherwise forwards the
message.  Also returns the leaser state afterwards. -/
def baseSocket.RequestResponse (reqLease : Leaser) (now : Nat)
    (message : Payload) : Mono × Leaser :=
  match Leaser.allow reqLease now with
  | (some e, l') => (Mono.error e, l')
  | (none, l') => (Mono.fromSocket message, l')

/-- baseSocket.RequestStream: on lease denial returns flux.Error(err)
without contacting the underlying duplex socket, otherwise forwards the
message.  Also returns the leaser state afterwards. -/
def baseSocket.RequestStream (reqLease : Leaser) (now : Nat)
    (message : Payload) : Flux × Leaser :=
  match Leaser.allow reqLease now with
  | (some e, l') => (Flux.error e, l')
  | (none, l') => (Flux.fromSocketStream message, l')

/-- baseSocket.RequestChannel: on lease denial returns flux.Error(err)
without contacting the underlying duplex socket, otherwise forwards the
publisher.  Also returns the leaser state afterwards. -/
def baseSocket.RequestChannel (reqLease : Leaser) (now : Nat)
    (messages : Publisher) : Flux × Leaser :=
  match Leaser.allow reqLease now with
  | (some e, l') => (Flux.error e, l')
  | (none, l') => (Flux.fromSocketChannel messages, l')

/-- Running k successive allow calls against a leaser at a fixed time:
true when every call allowed, together with the final leaser state; stops
at the first denial. -/
def Leaser.allowRun (reqLease : Leaser) (now : Nat) : Nat → Bool × Leaser
  | 0 => (true, reqLease)
  | Nat.succ k =>
    match Leaser.allow reqLease now with
    | (none, l') => Leaser.allowRun l' now k
    | (some _, l') => (false, l')

/-- AbstractRSocket of package socket: a record of five independently
optional handlers (FF, MP, RR, RS, RC). -/
structure AbstractRSocket where
  FF : Option (Payload → Unit)
  MP : Option (Payload → Unit)
  RR : Option (Payload → Mono)
  RS : Option (Payload → Flux)
  RC : Option (Publisher → Flux)

/-- AbstractRSocket.MetadataPush: when MP is unset, logs the unsupported
error via logger.Errorf and returns; otherwise runs the handler.  The
result is the logged diagnostic, if any. -/
def AbstractRSocket.MetadataPush (p : AbstractRSocket) (message : Payload) :
    Option RError :=
  match p.MP with
  | none => some errUnsupportedMetadataPush
  | some f =>
    let _ := f message
    none

/-- AbstractRSocket.FireAndForget: when FF is unset, logs the unsupported
error via logger.Errorf and returns; otherwise runs the handler.  The
result is the logged diagnostic, if any. -/
def AbstractRSocket.FireAndForget (p : AbstractRSocket) (message : Payload) :
    Option RError :=
  match p.FF with
  | none => some errUnsupportedFireAndForget
  | some f =>
    let _ := f message
    none

/-- AbstractRSocket.RequestResponse: when RR is unset, returns the
already-failed mono.Error(errUnsupportedRequestResponse); otherwise the
handler's mono. -/
def AbstractRSocket.RequestResponse (p : AbstractRSocket)
    (message : Payload) : Mono :=
  match p.RR with
  | none => Mono.error errUnsupportedRequestResponse
  | some f => f message

/-- AbstractRSocket.RequestStream: when RS is unset, returns the
already-failed flux.Error(errUnsupportedRequestStream); otherwise the
handler's flux. -/
def AbstractRSocket.RequestStream (p : AbstractRSocket)
    (message : Payload) : Flux :=
  match p.RS with
  | none => Flux.error errUnsupportedRequestStream
  | some f => f message

/-- AbstractRSocket.RequestChannel: when RC is unset, returns the
already-failed flux.Error(errUnsupportedRequestChannel); otherwise the
handler's flux. -/
def AbstractRSocket.RequestChannel (p : AbstractRSocket)
    (messages : Publisher) : Flux :=
  match p.RC with
  | none => Flux.error errUnsupportedRequestChannel
  | some f => f messages

/-- State of a base socket relevant to the close sequence: the registered
close hooks (abstract hook values of type H, in registration order) and
the sync.Once flag recording whether Close already ran its body. -/
structure SocketState (H : Type) where
  closers : List H
  done : Bool
deriving DecidableEq

/-- baseSocket.OnClose: a nil hook (none) is ignored; a non-nil hook is
appended to the closers list. -/
def baseSocket.OnClose {H : Type} (s : SocketState H) (fn : Option H) :
    SocketState H :=
  match fn with
  | some f => { s with closers := s.closers ++ [f] }
  | none => s

/-- The hook-notification loop of baseSocket.Close, over the closers in
the order the loop visits them.  Each hook h is invoked with the captured
close error; beh h err is the runtime fault the hook raises, if any, which
the deferred tryRecover catches and logs, so the loop always continues
with the remaining hooks.  Each trace entry records the hook, the argument
it received, and the fault logged for it. -/
def notifyClosers {H E F : Type} (beh : H → Option E → Option F)
    (err : Option E) : List H → List (H × Option E × Option F)
  | [] => []
  | h :: rest => (h, err, beh h err) :: notifyClosers beh err rest

/-- Observable outcome of one call to baseSocket.Close: the error value
the call returns, whether this call executed the underlying duplex
socket's Close, and the hook-invocation trace of this call. -/
structure CloseCall (H E F : Type) where
  ret : Option E
  closedUnderlying : Bool
  notified : List (H × Option E × Option F)
deriving DecidableEq

/-- baseSocket.Close: under the once gate, the first call closes the
underlying duplex socket, captures its result closeErr, and invokes the
registered hooks in reverse registration order (the source iterates
closers[l-i-1] for i from 0), each inside a recover boundary; it returns
the captured result.  A later call runs nothing and returns the zero value
nil. -/
def baseSocket.Close {H E F : Type} (beh : H → Option E → Option F)
    (closeErr : Option E) (s : SocketState H) :
    SocketState H × CloseCall H E F :=
  if s.done then
    (s, { ret := none, closedUnderlying := false, notified := [] })
  else
    ({ s with done := true },
     { ret := closeErr
       closedUnderlying := true
       notified := notifyClosers beh closeErr s.closers.reverse })

/-- A sequence of k calls to baseSocket.Close on the same socket (the
serialization of k concurrent callers: sync.Once serializes the body),
returning the final state and the outcome observed by each caller in
order. -/
def baseSocket.closeTimes {H E F : Type} (beh : H → Option E → Option F)
    (closeErr : Option E) (s : SocketState H) :
    Nat → SocketState H × List (CloseCall H E F)
  | 0 => (s, [])
  | Nat.succ k =>
    let r := baseSocket.Close beh closeErr s
    let rest := baseSocket.closeTimes beh closeErr r.1 k
    (rest.1, r.2 :: rest.2)

/-- The transport protocol enumeration of package transport. -/
inductive Protocol where
  | protoTCP
  | protoWebsocket
deriving DecidableEq

/-- URI of package transport: protocol, host and port. -/
structure URI where
  proto : Protocol
  host : String
  port : Nat
deriving DecidableEq

/-- The two error kinds ParseURI produces. -/
inductive URIError where
  | invalidURI (uri : String)
  | unsupportedProtocol (proto : String)
deriving DecidableEq

/-- Whether c lies in the character class [0-9]. -/
def isDigitChar (c : Char) : Bool := '0' ≤ c && c ≤ '9'

/-- The port pattern of regURI, [1-9][0-9]+ : a first digit in 1-9
followed by one or more digits. -/
def isPortChars : List Char → Bool
  | [] => false
  | c :: rest => ('1' ≤ c && c ≤ '9') && (!rest.isEmpty && rest.all isDigitChar)

/-- The host-and-port part of regURI, ([^/:]+):([1-9][0-9]+)$ : the host
is one or more characters other than / and :, so the first colon must
separate host from port and no backtracking past it is possible; acc
accumulates the host characters in reverse. -/
def hostPort (acc : List Char) : List Char → Option (List Char × List Char)
  | [] => none
  | c :: rest =>
    if c = ':' then
      if acc.isEmpty then none
      else if isPortChars rest then some (acc.reverse, rest) else none
    else if c = '/' then none
    else hostPort (c :: acc) rest

/-- Strips the literal pattern from the front of s, returning the
remainder when s starts with it. -/
def dropLit : List Char → List Char → Option (List Char)
  | s, [] => some s
  | [], _ :: _ => none
  | c :: s, p :: ps => if c = p then dropLit s ps else none

/-- One alternative of the scheme group (tcp:// or ws://) of regURI,
followed by host and port. -/
def tryScheme (uri : String) (scheme : String) :
    Option (String × String × String) :=
  match dropLit uri.data scheme.data with
  | none => none
  | some rest =>
    match hostPort [] rest with
    | some hp => some (scheme, String.mk hp.1, String.mk hp.2)
    | none => none

/-- The empty alternative of the optional scheme group of regURI: the
whole string is host and port, and submatch 1 is the empty string. -/
def tryEmptyScheme (uri : String) : Option (String × String × String) :=
  match hostPort [] uri.data with
  | some hp => some ("", String.mk hp.1, String.mk hp.2)
  | none => none

/-- regURI.FindStringSubmatch against
the anchored pattern (tcp://|ws://)?([^/:]+):([1-9][0-9]+) : the engine
tries the scheme alternatives in order, then the empty scheme; the three
submatches are (scheme, host, port). -/
def findStringSubmatch (uri : String) : Option (String × String × String) :=
  match tryScheme uri "tcp://" with
  | some m => some m
  | none =>
    match tryScheme uri "ws://" with
    | some m => some m
    | none => tryEmptyScheme uri

/-- strconv.Atoi on the matched digit run (the error is discarded at the
call site; overflow beyond the machine range is not modelled, no claim
exercises it). -/
def atoi (s : String) : Nat :=
  s.data.foldl (fun acc c => acc * 10 + (c.toNat - '0'.toNat)) 0

/-- ParseURI of package transport: no regex match yields the invalid-URI
error; otherwise the scheme submatch selects tcp (also when absent) or
websocket, and any other scheme value falls to the unsupported-protocol
error. -/
def ParseURI (uri : String) : Except URIError URI :=
  match findStringSubmatch uri with
  | none => Except.error (URIError.invalidURI uri)
  | some mat =>
    let proto := mat.1
    let host := mat.2.1
    let port := atoi mat.2.2
    if proto = "tcp://" || proto = "" then
      Except.ok { proto := Protocol.protoTCP, host := host, port := port }
    else if proto = "ws://" then
      Except.ok { proto := Protocol.protoWebsocket, host := host, port := port }
    else
      Except.error (URIError.unsupportedProtocol proto)

/-- Whether the first character of a port submatch lies in 1-9 (the class
the first port position of regURI admits). -/
def portLeadingDigitOk (p : String) : Bool :=
  match p.data with
  | [] => false
  | c :: _ => '1' ≤ c && c ≤ '9'

theorem hostPort_isPort {s acc hcs pcs : List Char}
    (h : hostPort acc s = some (hcs, pcs)) : isPortChars pcs = true := by
  induction s generalizing acc with
  | nil => simp [hostPort] at h
  | cons c rest ih =>
    unfold hostPort at h
    by_cases hc : c = ':'
    · rw [if_pos hc] at h
      by_cases he : acc.isEmpty
      · rw [if_pos he] at h; exact absurd h (by simp)
      · rw [if_neg he] at h
        by_cases hp : isPortChars rest
        · rw [if_pos hp] at h
          cases h
          exact hp
        · rw [if_neg hp] at h; exact absurd h (by simp)
    · rw [if_neg hc] at h
      by_cases hs : c = '/'
      · rw [if_pos hs] at h; exact absurd h (by simp)
      · rw [if_neg hs] at h
        exact ih h

theorem portLeadingDigitOk_of_isPort {pcs : List Char}
    (h : isPortChars pcs = true) : portLeadingDigitOk (String.mk pcs) = true := by
  cases pcs with
  | nil => simp [isPortChars] at h
  | cons c rest =>
    simp [isPortChars, Bool.and_eq_true] at h
    simp [portLeadingDigitOk]
    exact h.1

theorem tryScheme_shape {uri scheme : String} {m : String × String × String}
    (h : tryScheme uri scheme = some m) :
    ∃ rest hcs pcs, dropLit uri.data scheme.data = some rest
      ∧ hostPort [] rest = some (hcs, pcs)
      ∧ m = (scheme, String.mk hcs, String.mk pcs) := by
  unfold tryScheme at h
  split at h
  next => exact absurd h (by simp)
  next rest hd =>
    split at h
    next v hp =>
      cases h
      exact ⟨rest, v.1, v.2, hd, hp, rfl⟩
    next => exact absurd h (by simp)

theorem tryEmptyScheme_shape {uri : String} {m : String × String × String}
    (h : tryEmptyScheme uri = some m) :
    ∃ hcs pcs, hostPort [] uri.data = some (hcs, pcs)
      ∧ m = ("", String.mk hcs, String.mk pcs) := by
  unfold tryEmptyScheme at h
  split at h
  next v hp =>
    cases h
    exact ⟨v.1, v.2, hp, rfl⟩
  next => exact absurd h (by simp)

theorem findStringSubmatch_cases {uri : String} {m : String × String × String}
    (h : findStringSubmatch uri = some m) :
    tryScheme uri "tcp://" = some m ∨ tryScheme uri "ws://" = some m
      ∨ tryEmptyScheme uri = some m := by
  unfold findStringSubmatch at h
  split at h
  next v h1 => exact Or.inl (h1.trans h)
  next h1 =>
    split at h
    next v h2 => exact Or.inr (Or.inl (h2.trans h))
    next h2 => exact Or.inr (Or.inr h)

theorem findStringSubmatch_scheme {uri : String} {m : String × String × String}
    (h : findStringSubmatch uri = some m) :
    m.1 = "tcp://" ∨ m.1 = "ws://" ∨ m.1 = "" := by
  rcases findStringSubmatch_cases h with h' | h' | h'
  · obtain ⟨_, _, _, _, _, hm⟩ := tryScheme_shape h'
    exact Or.inl (by rw [hm])
  · obtain ⟨_, _, _, _, _, hm⟩ := tryScheme_shape h'
    exact Or.inr (Or.inl (by rw [hm]))
  · obtain ⟨_, _, _, hm⟩ := tryEmptyScheme_shape h'
    exact Or.inr (Or.inr (by rw [hm]))

theorem findStringSubmatch_port {uri : String} {m : String × String × String}
    (h : findStringSubmatch uri = some m) : portLeadingDigitOk m.2.2 = true := by
  rcases findStringSubmatch_cases h with h' | h' | h'
  · obtain ⟨_, _, _, _, hp, hm⟩ := tryScheme_shape h'
    rw [hm]
    exact portLeadingDigitOk_of_isPort (hostPort_isPort hp)
  · obtain ⟨_, _, _, _, hp, hm⟩ := tryScheme_shape h'
    rw [hm]
    exact portLeadingDigitOk_of_isPort (hostPort_isPort hp)
  · obtain ⟨_, _, hp, hm⟩ := tryEmptyScheme_shape h'
    rw [hm]
    exact portLeadingDigitOk_of_isPort (hostPort_isPort hp)

theorem ParseURI_of_submatch {uri pre host port : String}
    (hm : findStringSubmatch uri = some (pre, host, port)) :
    ParseURI uri =
      (if pre = "tcp://" || pre = "" then
        Except.ok { proto := Protocol.protoTCP, host := host, port := atoi port }
      else if pre = "ws://" then
        Except.ok { proto := Protocol.protoWebsocket, host := host, port := atoi port }
      else Except.error (URIError.unsupportedProtocol pre)) := by
  unfold ParseURI
  rw [hm]

theorem notifyClosers_eq_map {H E F : Type} (beh : H → Option E → Option F)
    (err : Option E) (l : List H) :
    notifyClosers beh err l = l.map (fun h => (h, err, beh h err)) := by
  induction l with
  | nil => rfl
  | cons h t ih => simp [notifyClosers, ih]

theorem close_on_done {H E F : Type} (beh : H → Option E → Option F)
    (closeErr : Option E) (s : SocketState H) (hd : s.done = true) :
    baseSocket.Close beh closeErr s
      = (s, { ret := none, closedUnderlying := false, notified := [] }) := by
  simp [baseSocket.Close, hd]

theorem closeTimes_on_done {H E F : Type} (beh : H → Option E → Option F)
    (closeErr : Option E) (s : SocketState H) (hd : s.done = true) (k : Nat) :
    baseSocket.closeTimes beh closeErr s k
      = (s, List.replicate k
          { ret := none, closedUnderlying := false, notified := [] }) := by
  induction k with
  | zero => rfl
  | succ k ih =>
    unfold baseSocket.closeTimes
    rw [close_on_done beh closeErr s hd]
    simp [ih, List.replicate_succ]

theorem allowRun_full {d now : Nat} (hlt : now < d) :
    ∀ k, Leaser.allowRun (some ⟨d, k⟩) now k = (true, some ⟨d, 0⟩) := by
  intro k
  induction k with
  | zero => rfl
  | succ k ih =>
    have ha : Leaser.allow (some ⟨d, Nat.succ k⟩) now = (none, some ⟨d, k⟩) := by
      simp only [Leaser.allow]
      rw [if_neg (Nat.not_le.mpr hlt), if_neg (Nat.succ_ne_zero k)]
      rfl
    unfold Leaser.allowRun
    rw [ha]
    exact ih

/-- Claim C1, counterexample: with an installed lease that is exhausted
(remaining zero, deadline not reached), FireAndForget logs the denial and
nevertheless forwards the message to the underlying duplex socket, so the
claim that a denied FireAndForget drops the request without forwarding is
false at this input. -/
theorem C1_counterexample :
    (baseSocket.FireAndForget (some ⟨5, 0⟩) 0 ⟨[1], none⟩).warned
        = some RError.leaseExhausted
    ∧ (baseSocket.FireAndForget (some ⟨5, 0⟩) 0 ⟨[1], none⟩).sent
        = some ⟨[1], none⟩ :=
  ⟨rfl, rfl⟩

/-- Claim C1, amended: when the installed lease denies a gated dispatch,
FireAndForget logs the denial but still forwards the request to the
underlying duplex socket, while RequestResponse, RequestStream and
RequestChannel each return an already-failed result carrying the
lease-denial error without contacting the remote peer. -/
theorem C1_denied_dispatch (reqLease : Leaser) (now : Nat)
    (message : Payload) (messages : Publisher) (e : RError) (l' : Leaser)
    (h : Leaser.allow reqLease now = (some e, l')) :
    baseSocket.FireAndForget reqLease now message
        = { warned := some e, sent := some message, reqLease := l' }
    ∧ baseSocket.RequestResponse reqLease now message = (Mono.error e, l')
    ∧ baseSocket.RequestStream reqLease now message = (Flux.error e, l')
    ∧ baseSocket.RequestChannel reqLease now messages = (Flux.error e, l') := by
  refine ⟨?_, ?_, ?_, ?_⟩ <;>
    simp [baseSocket.FireAndForget, baseSocket.RequestResponse,
      baseSocket.RequestStream, baseSocket.RequestChannel, h]

/-- Claim C1 witness: the amended statement at an exhausted lease. -/
theorem C1_denied_dispatch_witness :
    baseSocket.FireAndForget (some ⟨5, 0⟩) 0 ⟨[2], none⟩
        = { warned := some RError.leaseExhausted, sent := some ⟨[2], none⟩,
            reqLease := some ⟨5, 0⟩ }
    ∧ baseSocket.RequestResponse (some ⟨5, 0⟩) 0 ⟨[2], none⟩
        = (Mono.error RError.leaseExhausted, some ⟨5, 0⟩)
    ∧ baseSocket.RequestStream (some ⟨5, 0⟩) 0 ⟨[2], none⟩
        = (Flux.error RError.leaseExhausted, some ⟨5, 0⟩)
    ∧ baseSocket.RequestChannel (some ⟨5, 0⟩) 0 []
        = (Flux.error RError.leaseExhausted, some ⟨5, 0⟩) :=
  C1_denied_dispatch (some ⟨5, 0⟩) 0 ⟨[2], none⟩ [] RError.leaseExhausted
    (some ⟨5, 0⟩) rfl

/-- Claim C2, counterexample: ParseURI on ftp://host:1234 yields the
invalid-URI error, not the unsupported-protocol error the claim names
(the matcher admits only the two known schemes, so a foreign scheme never
reaches the protocol switch). -/
theorem C2_counterexample :
    ParseURI "ftp://host:1234"
        = Except.error (URIError.invalidURI "ftp://host:1234")
    ∧ URIError.invalidURI "ftp://host:1234"
        ≠ URIError.unsupportedProtocol "ftp://" :=
  ⟨rfl, by decide⟩

/-- Claim C2, amended: a URI string with a scheme prefix other than
tcp:// or ws:// fails with the invalid-URI error, as does a string not
matching the scheme-host-port shape at all; indeed every ParseURI outcome
is either a success or the invalid-URI error, so the unsupported-protocol
branch is unreachable. -/
theorem C2_scheme_resolution (uri : String) :
    ((∃ u, ParseURI uri = Except.ok u)
      ∨ ParseURI uri = Except.error (URIError.invalidURI uri))
    ∧ ParseURI "ftp://host:1234"
        = Except.error (URIError.invalidURI "ftp://host:1234")
    ∧ ParseURI "not-a-uri" = Except.error (URIError.invalidURI "not-a-uri") := by
  refine ⟨?_, rfl, rfl⟩
  cases hm : findStringSubmatch uri with
  | none =>
    right
    unfold ParseURI
    rw [hm]
  | some m =>
    left
    obtain ⟨pre, host, port⟩ := m
    have hp := ParseURI_of_submatch hm
    rcases findStringSubmatch_scheme hm with h1 | h1 | h1 <;> subst h1
    · exact ⟨_, hp⟩
    · exact ⟨_, hp⟩
    · exact ⟨_, hp⟩

/-- Claim C3: a sequence of K+1 calls to Close on a fresh socket runs the
underlying duplex close exactly once — on the first call, which returns
the captured close error and notifies every registered hook exactly once
in reverse registration order, each hook receiving that captured error —
while every later call runs nothing, notifies nobody and returns nil. -/
theorem C3_close_exactly_once {H E F : Type} (beh : H → Option E → Option F)
    (closeErr : Option E) (closers : List H) (K : Nat) :
    baseSocket.closeTimes beh closeErr { closers := closers, done := false }
        (K + 1)
      = ({ closers := closers, done := true },
         { ret := closeErr, closedUnderlying := true,
           notified := closers.reverse.map (fun h => (h, closeErr, beh h closeErr)) }
         :: List.replicate K
              { ret := none, closedUnderlying := false, notified := [] }) := by
  have h1 : baseSocket.Close beh closeErr
      { closers := closers, done := false }
      = ({ closers := closers, done := true },
         { ret := closeErr, closedUnderlying := true,
           notified := notifyClosers beh closeErr closers.reverse }) := by
    simp [baseSocket.Close]
  unfold baseSocket.closeTimes
  rw [h1]
  simp only [closeTimes_on_done beh closeErr { closers := closers, done := true }
    rfl K, notifyClosers_eq_map]

/-- Claim C4: the lease admission check of allow — no window installed
means every dispatch is allowed; at or past the deadline it denies with
lease expired even when quota remains; within the deadline with zero
quota it denies with lease exhausted; otherwise it decrements and allows
— and consequently a refresh with quota n followed by n allow calls
within the ttl yields n allows, after which the next call denies with
lease exhausted. -/
theorem C4_lease_case_analysis :
    (∀ now, Leaser.allow none now = (none, none))
    ∧ (∀ d r now, d ≤ now →
        Leaser.allow (some ⟨d, r⟩) now = (some RError.leaseExpired, some ⟨d, r⟩))
    ∧ (∀ d now, now < d →
        Leaser.allow (some ⟨d, 0⟩) now
          = (some RError.leaseExhausted, some ⟨d, 0⟩))
    ∧ (∀ d r now, now < d → r ≠ 0 →
        Leaser.allow (some ⟨d, r⟩) now = (none, some ⟨d, r - 1⟩))
    ∧ (∀ l0 now ttl n now', now' < now + ttl →
        Leaser.allowRun (baseSocket.refreshLease l0 now ttl n) now' n
            = (true, some ⟨now + ttl, 0⟩)
        ∧ Leaser.allow (some ⟨now + ttl, 0⟩) now'
            = (some RError.leaseExhausted, some ⟨now + ttl, 0⟩)) := by
  refine ⟨fun now => rfl, ?_, ?_, ?_, ?_⟩
  · intro d r now hle
    simp only [Leaser.allow]
    rw [if_pos hle]
  · intro d now hlt
    simp [Leaser.allow, Nat.not_le.mpr hlt]
  · intro d r now hlt hr
    simp only [Leaser.allow]
    rw [if_neg (Nat.not_le.mpr hlt), if_neg hr]
  · intro l0 now ttl n now' hlt
    refine ⟨allowRun_full hlt n, ?_⟩
    simp [Leaser.allow, Nat.not_le.mpr hlt]

/-- Claim C4 witness: refresh with ttl 10 and quota 3 at time 0, then
three allows at time 5 succeed and the fourth denies with exhausted;
also the no-window and expired cases at concrete inputs. -/
theorem C4_lease_case_analysis_witness :
    Leaser.allow none 7 = (none, none)
    ∧ Leaser.allow (some ⟨1, 2⟩) 1 = (some RError.leaseExpired, some ⟨1, 2⟩)
    ∧ Leaser.allowRun (baseSocket.refreshLease none 0 10 3) 5 3
        = (true, some ⟨10, 0⟩)
    ∧ Leaser.allow (some ⟨10, 0⟩) 5
        = (some RError.leaseExhausted, some ⟨10, 0⟩) :=
  ⟨C4_lease_case_analysis.1 7,
   C4_lease_case_analysis.2.1 1 2 1 (by decide),
   (C4_lease_case_analysis.2.2.2.2 none 0 10 3 5 (by decide)).1,
   (C4_lease_case_analysis.2.2.2.2 none 0 10 3 5 (by decide)).2⟩

/-- Claim C5: on a default responder whose corresponding handler is
unset, the three request-style methods return already-failed results
carrying their model-specific unsupported error, the two send-style
methods return normally having only logged their model-specific error,
and the five error values are pairwise distinct. -/
theorem C5_default_responder (p : AbstractRSocket) (message : Payload)
    (messages : Publisher) :
    (p.RR = none → AbstractRSocket.RequestResponse p message
        = Mono.error errUnsupportedRequestResponse)
    ∧ (p.RS = none → AbstractRSocket.RequestStream p message
        = Flux.error errUnsupportedRequestStream)
    ∧ (p.RC = none → AbstractRSocket.RequestChannel p messages
        = Flux.error errUnsupportedRequestChannel)
    ∧ (p.FF = none → AbstractRSocket.FireAndForget p message
        = some errUnsupportedFireAndForget)
    ∧ (p.MP = none → AbstractRSocket.MetadataPush p message
        = some errUnsupportedMetadataPush)
    ∧ List.Pairwise (fun a b => a ≠ b)
        [errUnsupportedMetadataPush, errUnsupportedFireAndForget,
         errUnsupportedRequestResponse, errUnsupportedRequestStream,
         errUnsupportedRequestChannel] := by
  refine ⟨?_, ?_, ?_, ?_, ?_, by decide⟩ <;> intro h <;>
    simp [AbstractRSocket.RequestResponse, AbstractRSocket.RequestStream,
      AbstractRSocket.RequestChannel, AbstractRSocket.FireAndForget,
      AbstractRSocket.MetadataPush, h]

/-- Claim C5 witness: the all-unset default responder at a concrete
payload. -/
theorem C5_default_responder_witness :
    AbstractRSocket.RequestResponse ⟨none, none, none, none, none⟩ ⟨[], none⟩
        = Mono.error errUnsupportedRequestResponse
    ∧ AbstractRSocket.RequestStream ⟨none, none, none, none, none⟩ ⟨[], none⟩
        = Flux.error errUnsupportedRequestStream
    ∧ AbstractRSocket.RequestChannel ⟨none, none, none, none, none⟩ []
        = Flux.error errUnsupportedRequestChannel
    ∧ AbstractRSocket.FireAndForget ⟨none, none, none, none, none⟩ ⟨[], none⟩
        = some errUnsupportedFireAndForget
    ∧ AbstractRSocket.MetadataPush ⟨none, none, none, none, none⟩ ⟨[], none⟩
        = some errUnsupportedMetadataPush :=
  have h := C5_default_responder ⟨none, none, none, none, none⟩ ⟨[], none⟩ []
  ⟨h.1 rfl, h.2.1 rfl, h.2.2.1 rfl, h.2.2.2.1 rfl, h.2.2.2.2.1 rfl⟩

/-- Claim C6: during the first Close, a hook that raises a runtime fault
has the fault caught and logged (it appears in the notification trace),
every other hook is still invoked — the trace covers all registered hooks
in reverse registration order — and the value Close returns is exactly
the underlying transport close error, unaffected by the fault. -/
theorem C6_hook_fault_isolated {H E F : Type} (beh : H → Option E → Option F)
    (closeErr : Option E) (closers : List H) (h : H) (f : F)
    (hmem : h ∈ closers) (hfault : beh h closeErr = some f) :
    (baseSocket.Close beh closeErr { closers := closers, done := false }).2.ret
        = closeErr
    ∧ ((baseSocket.Close beh closeErr
          { closers := closers, done := false }).2.notified).map Prod.fst
        = closers.reverse
    ∧ (h, closeErr, some f)
        ∈ (baseSocket.Close beh closeErr
            { closers := closers, done := false }).2.notified := by
  have hn : (baseSocket.Close beh closeErr
      { closers := closers, done := false }).2.notified
      = closers.reverse.map (fun x => (x, closeErr, beh x closeErr)) := by
    simp [baseSocket.Close, notifyClosers_eq_map]
  refine ⟨by simp [baseSocket.Close], ?_, ?_⟩
  · rw [hn, List.map_map]
    have hid : (Prod.fst ∘ fun x : H => (x, closeErr, beh x closeErr)) = id := rfl
    rw [hid, List.map_id]
  · rw [hn, List.mem_map]
    exact ⟨h, List.mem_reverse.mpr hmem, by rw [hfault]⟩

/-- Claim C6 witness: two hooks, the second (invoked first) faulting;
both appear in the trace and the returned error is the transport's. -/
theorem C6_hook_fault_isolated_witness :
    (baseSocket.Close (fun (a : Nat) (_ : Option Nat) =>
        if a = 2 then some 9 else none) (some 3)
        { closers := [1, 2], done := false }).2.ret = some 3
    ∧ ((baseSocket.Close (fun (a : Nat) (_ : Option Nat) =>
          if a = 2 then some 9 else none) (some 3)
          { closers := [1, 2], done := false }).2.notified).map Prod.fst
        = [2, 1]
    ∧ ((2 : Nat), (some 3 : Option Nat), (some 9 : Option Nat))
        ∈ (baseSocket.Close (fun (a : Nat) (_ : Option Nat) =>
            if a = 2 then some 9 else none) (some 3)
            { closers := [1, 2], done := false }).2.notified :=
  C6_hook_fault_isolated (fun a _ => if a = 2 then some 9 else none)
    (some 3) [1, 2] 2 9 (by decide) rfl

/-- Claim C7: ParseURI accepts tcp://host:1234, host:1234 (defaulting to
tcp) and ws://host:1234 with the expected protocol, host and port, and
rejects host:9 because the port rule requires at least two digits. -/
theorem C7_parse_uri_examples :
    ParseURI "tcp://host:1234"
        = Except.ok { proto := Protocol.protoTCP, host := "host", port := 1234 }
    ∧ ParseURI "host:1234"
        = Except.ok { proto := Protocol.protoTCP, host := "host", port := 1234 }
    ∧ ParseURI "ws://host:1234"
        = Except.ok { proto := Protocol.protoWebsocket, host := "host",
                      port := 1234 }
    ∧ ParseURI "host:9" = Except.error (URIError.invalidURI "host:9") :=
  ⟨rfl, rfl, rfl, rfl⟩

/-- Claim C8: MetadataPush forwards the payload unchanged to the
underlying duplex socket for every payload and every lease state, never
consulting the leaser, so it never consumes quota and is never denied. -/
theorem C8_metadata_push_ungated (reqLease : Leaser) (message : Payload) :
    baseSocket.MetadataPush reqLease message
      = { sent := some message, reqLease := reqLease } :=
  rfl

/-- Claim C9: ParseURI rejects host:01234 with the invalid-URI error even
though the port has more than two digits, and in general every accepted
match has a first port digit in 1-9, so ports with leading zeros are
never accepted. -/
theorem C9_no_leading_zero_ports :
    ParseURI "host:01234" = Except.error (URIError.invalidURI "host:01234")
    ∧ ∀ uri m, findStringSubmatch uri = some m
        → portLeadingDigitOk m.2.2 = true :=
  ⟨rfl, fun _ _ h => findStringSubmatch_port h⟩

/-- Claim C9 witness: the accepted match for host:1234 has a nonzero
leading port digit. -/
theorem C9_no_leading_zero_ports_witness : portLeadingDigitOk "1234" = true :=
  C9_no_leading_zero_ports.2 "host:1234" ("", "host", "1234") rfl

/-- Claim C10: OnClose with a nil hook leaves the registered hook list
unchanged; after any sequence of registrations the hook list holds
exactly the non-nil registrations in order, so the close sequence never
invokes a nil hook. -/
theorem C10_nil_hooks_ignored {H : Type} (s : SocketState H)
    (fns : List (Option H)) :
    baseSocket.OnClose s none = s
    ∧ (List.foldl baseSocket.OnClose s fns).closers
        = s.closers ++ fns.filterMap id := by
  refine ⟨rfl, ?_⟩
  induction fns generalizing s with
  | nil => simp
  | cons fn t ih =>
    cases fn with
    | none =>
      rw [List.foldl_cons]
      simpa [baseSocket.OnClose] using ih s
    | some f =>
      rw [List.foldl_cons]
      have := ih { s with closers := s.closers ++ [f] }
      simpa [baseSocket.OnClose] using this
